import Mathlib

/-!
Verification development for the Zoho Projects time-tracker extension.

The definitions below are shallow embeddings of the extension's TypeScript
source: the timer state machine (`src/tasks.ts`, class `TasksManager`), the
status-bar stopwatch (`src/status-bar.ts`, class `ZohoStatusBar`), the OAuth
coordinator (`src/authentication.ts`, class `ZohoAuthenticationProvider`,
loopback-server variant), the loopback listener (`src/local-auth-server.ts`,
class `LocalAuthServer`), the draft coordinator with its embedded server
(`src/authentication.ts.new`), and the custom-scheme URI variant with its
malformed-URI normalization (`extractQueryParams`).

Timestamps are modelled as integers (JавaScript `Date.getTime()` milliseconds);
network calls are modelled by explicit success/failure parameters, and the
remote calls a method issues are returned as an explicit list.
-/

namespace Zoho

/-- One Zoho task as far as the timer logic reads it: its id and the id of the
project it belongs to (`task.project.id`). -/
structure ZTaskBase where
  id : String
  project : String
deriving DecidableEq, Repr

/-- A task in the loaded task list, with one level of subtasks
(`ZohoTask.subtasks`), mirroring what `findTaskById` traverses. -/
structure ZTask where
  base : ZTaskBase
  subtasks : List ZTaskBase
deriving DecidableEq, Repr

/-- The `currentTimer` record of `TasksManager`. -/
structure TimerInfo where
  taskId : String
  projectId : String
  startTime : Int
  isPaused : Bool
  pausedAt : Option Int
  totalPausedMs : Int
deriving DecidableEq, Repr

/-- The state of `TasksManager` that the timer operations read and write.
`initialized` stands for `apiClient` and `portalId` both being set. -/
structure TasksState where
  initialized : Bool
  tasks : List ZTask
  currentTimer : Option TimerInfo
deriving DecidableEq, Repr

/-- Remote API calls a timer operation can issue. -/
inductive RemoteCall where
  | startTimerCall
  | pauseTimerCall
  | stopTimerCall
  | logTimeCall
deriving DecidableEq, Repr

/-- The time-log entry built by `stopTimer` (`ZohoTimeLog`). -/
structure TimeLog where
  task_id : String
  hours : Int
  minutes : Int
  work_date : String
  bill_status : String
  notes : String
deriving DecidableEq, Repr

/-- `TasksManager.findTaskById`: search the top-level tasks first, then each
parent's subtasks in order. -/
def findTaskById (tasks : List ZTask) (taskId : String) : Option ZTaskBase :=
  match tasks.find? (fun t => t.base.id == taskId) with
  | some t => some t.base
  | none =>
      (tasks.findSome? (fun p => p.subtasks.find? (fun s => s.id == taskId)))

/-- `TasksManager.startTimer(taskId)`.  `now` is the clock reading,
`remoteOk` the outcome of the remote start call (when one is issued).
Returns the boolean result, the state after the call, and the remote calls
issued. -/
def startTimer (st : TasksState) (taskId : String) (now : Int)
    (remoteOk : Bool) : Bool × TasksState × List RemoteCall :=
  if !st.initialized then (false, st, [])
  else
    match findTaskById st.tasks taskId with
    | none => (false, st, [])
    | some task =>
        match st.currentTimer with
        | some tm =>
            if tm.taskId == taskId && tm.isPaused then
              -- resume branch: no remote call
              let tm' :=
                match tm.pausedAt with
                | some p =>
                    { tm with isPaused := false, pausedAt := none,
                              totalPausedMs := tm.totalPausedMs + (now - p) }
                | none => { tm with isPaused := false }
              (true, { st with currentTimer := some tm' }, [])
            else
              -- "start new timer" branch (also taken while running)
              let fresh : TimerInfo := ⟨taskId, task.project, now, false, none, 0⟩
              if remoteOk then
                (true, { st with currentTimer := some fresh }, [.startTimerCall])
              else (false, st, [.startTimerCall])
        | none =>
            let fresh : TimerInfo := ⟨taskId, task.project, now, false, none, 0⟩
            if remoteOk then
              (true, { st with currentTimer := some fresh }, [.startTimerCall])
            else (false, st, [.startTimerCall])

/-- `TasksManager.pauseTimer()`. -/
def pauseTimer (st : TasksState) (now : Int) (remoteOk : Bool) :
    Bool × TasksState × List RemoteCall :=
  if !st.initialized then (false, st, [])
  else
    match st.currentTimer with
    | none => (false, st, [])
    | some tm =>
        if tm.isPaused then (false, st, [])
        else
          let tm' := { tm with isPaused := true, pausedAt := some now }
          if remoteOk then
            (true, { st with currentTimer := some tm' }, [.pauseTimerCall])
          else (false, st, [.pauseTimerCall])

/-- `TasksManager.stopTimer()`.  `stopOk` is the outcome of the remote stop
call, `logOk` of the subsequent `logTime` call, `today` the current calendar
date string.  Note the elapsed computation: `now - startTime - totalPausedMs`,
with no special handling of a still-open paused interval. -/
def stopTimer (st : TasksState) (now : Int) (stopOk logOk : Bool)
    (today : String) : Bool × TasksState × List RemoteCall × Option TimeLog :=
  if !st.initialized then (false, st, [], none)
  else
    match st.currentTimer with
    | none => (false, st, [], none)
    | some tm =>
        if stopOk then
          let totalMs : Int := now - tm.startTime - tm.totalPausedMs
          -- Math.floor(x / y) is Int.fdiv; the script's `%` is Int.tmod
          let totalMinutes : Int := Int.fdiv totalMs 60000
          let hours : Int := Int.fdiv totalMinutes 60
          let minutes : Int := Int.tmod totalMinutes 60
          let log : TimeLog :=
            ⟨tm.taskId, hours, minutes, today, "Billable",
             "Tiempo registrado automáticamente por VS Code Extension"⟩
          if logOk then
            (true, { st with currentTimer := none },
             [.stopTimerCall, .logTimeCall], some log)
          else
            -- logTime threw: the catch returns false and the timer is kept
            (false, st, [.stopTimerCall, .logTimeCall], some log)
        else (false, st, [.stopTimerCall], none)

/-- The millisecond value computed by `TasksManager.getCurrentTimerElapsed`
before it is formatted as `HH:MM:SS`: unlike `stopTimer`, it additionally
subtracts the still-open `now - pausedAt` interval while paused. -/
def getCurrentTimerElapsedMs (st : TasksState) (now : Int) : Int :=
  match st.currentTimer with
  | none => 0
  | some tm =>
      let base := now - tm.startTime - tm.totalPausedMs
      if tm.isPaused then
        match tm.pausedAt with
        | some p => base - (now - p)
        | none => base
      else base

/-- The fields of `ZohoStatusBar` touched by `start`/`pause`/`stop`
(`src/status-bar.ts`).  `intervalActive` models whether the 1-second
`setInterval` handle is set; display strings are not modelled. -/
structure SBState where
  isRunning : Bool
  isPaused : Bool
  startTime : Option Int
  pausedDuration : Int
  elapsedSeconds : Int
  currentTask : Option String
  intervalActive : Bool
deriving DecidableEq, Repr

/-- `ZohoStatusBar.start(task)`: rejects (warning, early return) when a timer
is running and not paused; resumes when paused; otherwise resets and starts a
fresh stopwatch. -/
def sbStart (st : SBState) (task : String) (now : Int) : SBState :=
  if st.isRunning && !st.isPaused then st
  else
    let st1 :=
      if st.isPaused then
        let pd :=
          match st.startTime with
          | some s => st.pausedDuration + Int.fdiv (now - s) 1000
          | none => st.pausedDuration
        { st with isPaused := false, pausedDuration := pd,
                  startTime := some now }
      else
        { isRunning := false, isPaused := false, startTime := some now,
          pausedDuration := 0, elapsedSeconds := 0, currentTask := some task,
          intervalActive := false }
    { st1 with isRunning := true, intervalActive := true }

/-! ## Authentication coordinator (`src/authentication.ts`, loopback variant)

`ZohoAuthenticationProvider.login()` is embedded as a function of the
environment it interacts with (configuration, browser, the local server's
one-shot result, the token endpoint and the identity endpoint) and of the
provider state.  Binding of the local server is assumed to succeed here; bind
failures are modelled separately with `localServerStart`. -/

/-- JavaScript truthiness of an optional string (`undefined` and `""` are
falsy), as used by the credential and parameter checks. -/
def truthyStr : Option String → Bool
  | none => false
  | some s => s != ""

/-- What `LocalAuthServer.waitForAuthCode()` does during this attempt:
deliver a `{code, state}` pair, reject with the missing-parameter error, or
never settle (no callback request ever arrives). -/
inductive ListenerBehavior where
  | delivers (code state : String)
  | errors
  | hangs
deriving DecidableEq, Repr

/-- Environment of one `login()` run. `exchange` is the token endpoint's
answer (`some (accessToken, refreshToken)` or an HTTP failure), `identity`
the `GET /api/v3/portal` answer (`some (userId, accountName)`). -/
structure LoginEnv where
  clientId : Option String
  clientSecret : Option String
  browserOk : Bool
  listener : ListenerBehavior
  exchange : Option (String × String)
  identity : Option (String × String)
deriving DecidableEq, Repr

/-- Provider state: the `isAuthenticating` flag, whether a local server is
alive (`localAuthServer !== null`), the two secret-storage slots and the
in-memory session `(accessToken, userId, accountLabel)`. -/
structure AuthState where
  isAuthenticating : Bool
  serverActive : Bool
  accessTokenStored : Option String
  refreshTokenStored : Option String
  session : Option (String × String × String)
deriving DecidableEq, Repr

/-- Observable side effects of one `login()` run. -/
structure LoginEffects where
  openedBrowser : Bool
  startedServer : Bool
  exchangeAttempted : Bool
deriving DecidableEq, Repr

/-- Terminal (or, for `pending`, non-terminal) outcome of `login()`. The
source has no timeout path in this variant, so there is no timed-out
outcome: with a silent listener the attempt stays `pending` forever. -/
inductive LoginResult where
  | success (accessToken userId account : String)
  | alreadyInProgress
  | missingCredentials
  | browserFailed
  | listenerError
  | stateMismatch
  | noCode
  | processingFailed
  | pending
deriving DecidableEq, Repr

/-- `ZohoAuthenticationProvider.login()` of the loopback variant, step by
step: in-progress guard, credential check, server start, browser launch,
await of the listener, CSRF-state validation, code check, token exchange
(tokens are persisted right after the exchange, before the identity fetch),
identity fetch and session construction.  Every failure path after the server
start runs `cleanupLocalServer()` and clears `isAuthenticating`. -/
def login (expectedState : String) (env : LoginEnv) (st : AuthState) :
    LoginResult × AuthState × LoginEffects :=
  if st.isAuthenticating then
    (.alreadyInProgress, st, ⟨false, false, false⟩)
  else if !(truthyStr env.clientId && truthyStr env.clientSecret) then
    (.missingCredentials, { st with isAuthenticating := false },
     ⟨false, false, false⟩)
  else
    let st1 := { st with isAuthenticating := true, serverActive := true }
    let down := fun (s : AuthState) =>
      { s with serverActive := false, isAuthenticating := false }
    if !env.browserOk then
      (.browserFailed, down st1, ⟨false, true, false⟩)
    else
      match env.listener with
      | .hangs => (.pending, st1, ⟨true, true, false⟩)
      | .errors => (.listenerError, down st1, ⟨true, true, false⟩)
      | .delivers code returnedState =>
          if returnedState != expectedState then
            (.stateMismatch, down st1, ⟨true, true, false⟩)
          else if code == "" then
            (.noCode, down st1, ⟨true, true, false⟩)
          else
            match env.exchange with
            | none => (.processingFailed, down st1, ⟨true, true, true⟩)
            | some (tok, reftok) =>
                let st2 := { st1 with accessTokenStored := some tok,
                                      refreshTokenStored := some reftok }
                match env.identity with
                | none => (.processingFailed, down st2, ⟨true, true, true⟩)
                | some (uid, account) =>
                    (.success tok uid account,
                     down { st2 with session := some (tok, uid, account) },
                     ⟨true, true, true⟩)

/-! ## Loopback listener (`src/local-auth-server.ts`) -/

/-- An incoming HTTP request, reduced to what `url.parse(req.url, true)`
yields: the path and the parsed query parameters. -/
structure HttpReq where
  path : String
  query : List (String × String)
deriving DecidableEq, Repr

/-- An HTTP answer: the status code and whether the body is the static HTML
success page. -/
structure HttpAnswer where
  status : Nat
  successPage : Bool
deriving DecidableEq, Repr

/-- What `LocalAuthServer.handleRequest` emits on its one-shot emitter after
answering. -/
inductive Emission where
  | authCode (code state : String)
  | emitError
deriving DecidableEq, Repr

/-- `LocalAuthServer.handleRequest`: parses the query, always answers 200
with the HTML success page (the path is never inspected), then emits
`{code, state}` when both parameters are truthy and the missing-parameter
error otherwise. -/
def handleRequest (req : HttpReq) : HttpAnswer × Emission :=
  let code := req.query.lookup "code"
  let state := req.query.lookup "state"
  (⟨200, true⟩,
   if truthyStr code && truthyStr state then
     .authCode (code.getD "") (state.getD "")
   else .emitError)

/-- How one attempt's await ends. -/
inductive AwaitOutcome where
  | result (code state : String)
  | timedOut
  | neverResolves
deriving DecidableEq, Repr

/-- `LocalAuthServer.waitForAuthCode()` as a function of when (in ms since
the attempt started) the callback arrives, if ever: it settles with whatever
arrives, at any time, and never times out; with no arrival it never settles. -/
def serverAwait (arrival : Option (Nat × String × String)) : AwaitOutcome :=
  match arrival with
  | none => .neverResolves
  | some (_, code, state) => .result code state

/-- Outcome of binding the listening socket on one port. -/
inductive BindOutcome where
  | ok
  | addrInUse
  | otherErr
deriving DecidableEq, Repr

/-- `LocalAuthServer.start()`: create the server and listen on the configured
port; any listen error rejects the returned promise — there is no retry.
Returns the port actually listened on, or `none` on failure. -/
def localServerStart (bind : Nat → BindOutcome) (port : Nat) : Option Nat :=
  match bind port with
  | .ok => some port
  | .addrInUse => none
  | .otherErr => none

/-! ## Draft coordinator with embedded server (`src/authentication.ts.new`) -/

/-- What the draft server's request handler decides to do after answering. -/
inductive NewServerAction where
  | noAction
  | rejectBadState
  | rejectNoCode
  | exchangeCode (code : String)
deriving DecidableEq, Repr

/-- The request handler inside `authentication.ts.new`'s `startLocalServer`:
404 for any path other than `/auth-callback`; then the state check
(`returnedState !== state`, an absent parameter also mismatches) and the code
check answer 400 and reject; only then is the 200 success page sent and the
token exchange started. -/
def newHandleRequest (expectedState : String) (req : HttpReq) :
    HttpAnswer × NewServerAction :=
  if req.path != "/auth-callback" then (⟨404, false⟩, .noAction)
  else if req.query.lookup "state" != some expectedState then
    (⟨400, false⟩, .rejectBadState)
  else
    match req.query.lookup "code" with
    | none => (⟨400, false⟩, .rejectNoCode)
    | some c =>
        if c == "" then (⟨400, false⟩, .rejectNoCode)
        else (⟨200, true⟩, .exchangeCode c)

/-- `startLocalServer`'s bind logic in `authentication.ts.new`: on an
`EADDRINUSE` listen error it increments the static port and calls itself
again — with no bound on the number of retries; any other error rejects.
The real recursion is unbounded, so it is given explicit fuel here. -/
def newServerStart (bind : Nat → BindOutcome) : Nat → Nat → Option Nat
  | _, 0 => none
  | port, fuel + 1 =>
      match bind port with
      | .ok => some port
      | .addrInUse => newServerStart bind (port + 1) fuel
      | .otherErr => none

/-! ## Custom-scheme URI variant (`setupUriHandler` in the draft using
`vscode.window.registerUriHandler`) -/

/-- The login deadline: `10 * 60 * 1000` ms. -/
def loginTimeoutMs : Nat := 10 * 60 * 1000

/-- `setupUriHandler`'s await, as a function of when the redirect URI
arrives: the `setTimeout` rejects with the timeout error and disposes the
handler after 10 minutes, so an arrival at or past the deadline (or no
arrival) ends in `timedOut` with the handler cleared; an arrival before the
deadline cancels the timer and the handler proceeds with the result.
The returned flag says whether the deadline teardown ran. -/
def uriHandlerAwait (arrival : Option (Nat × String × String)) :
    AwaitOutcome × Bool :=
  match arrival with
  | none => (.timedOut, true)
  | some (t, code, state) =>
      if t < loginTimeoutMs then (.result code state, false)
      else (.timedOut, true)

/-! ## Malformed-URI normalization (`extractQueryParams`, custom-scheme
variant)

The rewrite pass is embedded over `List Char`. `isPre` is JavaScript
`String.startsWith`, `hasSub` is `String.includes`, and `replaceFirst` is
`String.replace` with a string pattern (it rewrites the first occurrence
only). -/

/-- `a.startsWith(b)` seen from the pattern: `isPre pat s` holds when `pat`
is an initial segment of `s`. -/
def isPre : List Char → List Char → Bool
  | [], _ => true
  | _ :: _, [] => false
  | a :: as, b :: bs => a == b && isPre as bs

/-- `s.includes(pat)`. -/
def hasSub (pat : List Char) : List Char → Bool
  | [] => pat.isEmpty
  | c :: t => isPre pat (c :: t) || hasSub pat t

/-- `s.replace(pat, rep)` with a string pattern: rewrite the first (leftmost)
occurrence of `pat` and leave the rest untouched. -/
def replaceFirst (pat rep : List Char) : List Char → List Char
  | [] => []
  | c :: t =>
      if isPre pat (c :: t) then rep ++ (c :: t).drop pat.length
      else c :: replaceFirst pat rep t

/-- The ordered rewrite rules of `extractQueryParams`, an if/else-if chain:
`https://vscode//` → `vscode://`, then `http://vscode//` → `vscode://`, then
(when `vscode:/zoho-projects` occurs) `vscode:/` → `vscode://`, then
(when `vscode:///` occurs) `vscode:///` → `vscode://`. -/
def normalizeUri (s : List Char) : List Char :=
  if isPre "https://vscode//".toList s then
    replaceFirst "https://vscode//".toList "vscode://".toList s
  else if isPre "http://vscode//".toList s then
    replaceFirst "http://vscode//".toList "vscode://".toList s
  else if hasSub "vscode:/zoho-projects".toList s then
    replaceFirst "vscode:/".toList "vscode://".toList s
  else if hasSub "vscode:///".toList s then
    replaceFirst "vscode:///".toList "vscode://".toList s
  else s

/-- The canonical redirect URI's fixed part, as delivered to the handler:
`vscode://zoho-projects-time-tracker/auth-callback`. -/
def canonicalChars : List Char :=
  "vscode://zoho-projects-time-tracker/auth-callback".toList

/-- `canonicalChars` without its leading `'v'`. -/
def canonicalTail : List Char :=
  "scode://zoho-projects-time-tracker/auth-callback".toList

/-! ## General lemmas about the string-scanning primitives -/

/-- A pattern check that fits inside the left part of an appended list is
unaffected by the right part. -/
theorem isPre_append_right (p s q : List Char) (h : p.length ≤ s.length) :
    isPre p (s ++ q) = isPre p s := by
  induction p generalizing s with
  | nil => simp [isPre]
  | cons a as ih =>
      cases s with
      | nil => simp at h
      | cons b bs =>
          simp only [List.cons_append, isPre, List.append_eq]
          rw [ih bs (by simpa using h)]

/-- Every character of a matched pattern occurs in the scanned list. -/
theorem mem_of_isPre (p s : List Char) (h : isPre p s = true) :
    ∀ c ∈ p, c ∈ s := by
  induction p generalizing s with
  | nil => simp
  | cons a as ih =>
      cases s with
      | nil => simp [isPre] at h
      | cons b bs =>
          simp only [isPre, Bool.and_eq_true, beq_iff_eq] at h
          obtain ⟨rfl, h2⟩ := h
          intro c hc
          rcases List.mem_cons.mp hc with rfl | hc
          · exact List.mem_cons_self _ _
          · exact List.mem_cons_of_mem _ (ih bs h2 c hc)

/-- A pattern containing a character that the scanned list lacks never
occurs in it. -/
theorem hasSub_false_of_missing (p : List Char) (c : Char) (hc : c ∈ p) :
    ∀ s : List Char, c ∉ s → hasSub p s = false := by
  intro s
  induction s with
  | nil =>
      intro _
      cases p with
      | nil => simp at hc
      | cons a as => simp [hasSub]
  | cons b bs ih =>
      intro hns
      have h1 : isPre p (b :: bs) = false := by
        cases hpre : isPre p (b :: bs) with
        | false => rfl
        | true => exact absurd (mem_of_isPre p (b :: bs) hpre c hc) hns
      have h2 : hasSub p bs = false :=
        ih (fun hm => hns (List.mem_cons_of_mem _ hm))
      simp [hasSub, h1, h2]

/-- Scanning for a pattern across an appended list whose left part lacks the
pattern's first character reduces to scanning the right part. -/
theorem hasSub_head_skip (hd : Char) (tl s q : List Char) (h : hd ∉ s) :
    hasSub (hd :: tl) (s ++ q) = hasSub (hd :: tl) q := by
  induction s with
  | nil => rfl
  | cons b bs ih =>
      have hb : hd ≠ b := fun e => h (e ▸ List.mem_cons_self b bs)
      have hin : hd ∉ bs := fun m => h (List.mem_cons_of_mem _ m)
      have hpre : isPre (hd :: tl) (b :: (bs ++ q)) = false := by
        simp [isPre, hb]
      simp only [List.cons_append, hasSub, List.append_eq, hpre, ih hin,
        Bool.false_or]

/-! ## The claims -/

/-- C1: for a delivered `{code, state}` pair, `login()` validates the CSRF
state: on a match it proceeds to the token exchange and persists both the
access and the refresh token; on a mismatch it fails with the security
(state-mismatch) error, tears down the pending request (server stopped,
`isAuthenticating` cleared), and persists nothing — the whole resulting
state equals the entry state with only the two teardown flags cleared. -/
theorem login_state_validation
    (expectedState code returnedState : String) (env : LoginEnv)
    (st : AuthState)
    (hidle : st.isAuthenticating = false)
    (hcid : truthyStr env.clientId = true)
    (hsec : truthyStr env.clientSecret = true)
    (hbr : env.browserOk = true)
    (hl : env.listener = .delivers code returnedState)
    (hcode : code ≠ "") :
    (returnedState = expectedState →
      ∀ tok reftok, env.exchange = some (tok, reftok) →
        (login expectedState env st).2.1.accessTokenStored = some tok ∧
        (login expectedState env st).2.1.refreshTokenStored = some reftok ∧
        (login expectedState env st).2.2.exchangeAttempted = true) ∧
    (returnedState ≠ expectedState →
      login expectedState env st =
        (.stateMismatch,
         { st with isAuthenticating := false, serverActive := false },
         ⟨true, true, false⟩)) := by
  constructor
  · rintro rfl tok reftok hex
    simp only [login, hidle, hcid, hsec, hbr, hl, hex, Bool.false_eq_true,
      if_false, Bool.and_self, bne_self_eq_false, Bool.not_true,
      Bool.not_false, if_true]
    simp [hcode]
    cases hid : env.identity with
    | none => simp
    | some p => cases p with | mk u a => simp
  · intro hne
    have hbne : (returnedState != expectedState) = true := by
      simpa using hne
    simp [login, hidle, hcid, hsec, hbr, hl, hbne]

/-- C1 witness: a matched state persists both tokens; a mismatched state
fails with the security error and leaves the secret store empty. -/
theorem login_state_validation_witness :
    ((login "S1" ⟨some "id", some "sec", true, .delivers "C1" "S1",
        some ("AT", "RT"), some ("U", "N")⟩
        ⟨false, false, none, none, none⟩).2.1.accessTokenStored = some "AT" ∧
     (login "S1" ⟨some "id", some "sec", true, .delivers "C1" "S1",
        some ("AT", "RT"), some ("U", "N")⟩
        ⟨false, false, none, none, none⟩).2.1.refreshTokenStored
       = some "RT") ∧
    login "S1" ⟨some "id", some "sec", true, .delivers "C1" "EVIL",
        some ("AT", "RT"), some ("U", "N")⟩
        ⟨false, false, none, none, none⟩
      = (.stateMismatch, ⟨false, false, none, none, none⟩,
         ⟨true, true, false⟩) := by
  constructor
  · have h := (login_state_validation "S1" "C1" "S1"
      ⟨some "id", some "sec", true, .delivers "C1" "S1",
        some ("AT", "RT"), some ("U", "N")⟩
      ⟨false, false, none, none, none⟩
      rfl (by decide) (by decide) rfl rfl (by decide)).1 rfl "AT" "RT" rfl
    exact ⟨h.1, h.2.1⟩
  · exact (login_state_validation "S1" "C1" "EVIL"
      ⟨some "id", some "sec", true, .delivers "C1" "EVIL",
        some ("AT", "RT"), some ("U", "N")⟩
      ⟨false, false, none, none, none⟩
      rfl (by decide) (by decide) rfl rfl (by decide)).2 (by decide)

/-- C2 (failing input for the claimed stop-time invariant): start task `t1`
at 0 ms, pause at 3 600 000 ms (one hour of work), stop at 5 400 000 ms while
still paused.  `stopTimer` computes `elapsedMs = now - startTime -
totalPausedMs = 5 400 000` — it never subtracts the still-open
`now - pausedAt` interval — and logs 1 h 30 m, counting the 30 paused minutes
as work, while `getCurrentTimerElapsed` on the very same state reports
3 600 000 ms (1 h 0 m), which is the wall-clock time minus all paused
intervals that the claim (and the spec's invariant) demands. -/
theorem stopTimer_ignores_open_pause_trace :
    startTimer ⟨true, [⟨⟨"t1", "p1"⟩, []⟩], none⟩ "t1" 0 true
      = (true, ⟨true, [⟨⟨"t1", "p1"⟩, []⟩],
          some ⟨"t1", "p1", 0, false, none, 0⟩⟩, [.startTimerCall]) ∧
    pauseTimer ⟨true, [⟨⟨"t1", "p1"⟩, []⟩],
        some ⟨"t1", "p1", 0, false, none, 0⟩⟩ 3600000 true
      = (true, ⟨true, [⟨⟨"t1", "p1"⟩, []⟩],
          some ⟨"t1", "p1", 0, true, some 3600000, 0⟩⟩, [.pauseTimerCall]) ∧
    stopTimer ⟨true, [⟨⟨"t1", "p1"⟩, []⟩],
        some ⟨"t1", "p1", 0, true, some 3600000, 0⟩⟩ 5400000 true true
        "2025-05-01"
      = (true, ⟨true, [⟨⟨"t1", "p1"⟩, []⟩], none⟩,
         [.stopTimerCall, .logTimeCall],
         some ⟨"t1", 1, 30, "2025-05-01", "Billable",
           "Tiempo registrado automáticamente por VS Code Extension"⟩) ∧
    getCurrentTimerElapsedMs ⟨true, [⟨⟨"t1", "p1"⟩, []⟩],
        some ⟨"t1", "p1", 0, true, some 3600000, 0⟩⟩ 5400000 = 3600000 := by
  decide

/-- C3: a `login()` call while `isAuthenticating` is set returns the
already-in-progress result and is a complete no-op: the state is returned
untouched and no browser window, no server and no exchange happen. -/
theorem login_already_in_progress_frame
    (expectedState : String) (env : LoginEnv) (st : AuthState)
    (h : st.isAuthenticating = true) :
    login expectedState env st = (.alreadyInProgress, st, ⟨false, false, false⟩) := by
  simp [login, h]

/-- C3 witness: a concrete second `login()` during a pending attempt. -/
theorem login_already_in_progress_frame_witness :
    login "S2" ⟨some "id", some "sec", true, .hangs, none, none⟩
        ⟨true, true, some "A", some "R", none⟩
      = (.alreadyInProgress, ⟨true, true, some "A", some "R", none⟩,
         ⟨false, false, false⟩) :=
  login_already_in_progress_frame "S2"
    ⟨some "id", some "sec", true, .hangs, none, none⟩
    ⟨true, true, some "A", some "R", none⟩ rfl

/-- C4 counterexample: `TasksManager.startTimer` called for task `t2` while
a timer is Running for `t1` (and the remote start call succeeds) does not
reject — it returns success, issues a remote start call, and replaces the
running timer with a fresh timer for `t2`, discarding the old bookkeeping;
the claim demands failure with the existing timer left unchanged and no new
timer created. -/
theorem startTimer_running_overwrite_cex :
    startTimer ⟨true, [⟨⟨"t1", "p1"⟩, []⟩, ⟨⟨"t2", "p2"⟩, []⟩],
        some ⟨"t1", "p1", 0, false, none, 0⟩⟩ "t2" 1000 true
      = (true, ⟨true, [⟨⟨"t1", "p1"⟩, []⟩, ⟨⟨"t2", "p2"⟩, []⟩],
          some ⟨"t2", "p2", 1000, false, none, 0⟩⟩, [.startTimerCall]) := by
  decide

/-- C4 (amended): `TasksManager.startTimer` never rejects a start for a task
different from the current timer's: it issues the remote start call and, on
success, overwrites `currentTimer` with a fresh timer for the new task.
The only rejection of a start while running-and-not-paused lives in
`ZohoStatusBar.start`, which leaves the status-bar state unchanged. -/
theorem startTimer_running_overwrite
    (st : TasksState) (t' : String) (now : Int) (tm : TimerInfo)
    (task : ZTaskBase)
    (hinit : st.initialized = true)
    (hfind : findTaskById st.tasks t' = some task)
    (htm : st.currentTimer = some tm)
    (hdiff : tm.taskId ≠ t') :
    (startTimer st t' now true
      = (true,
         { st with currentTimer := some ⟨t', task.project, now, false, none, 0⟩ },
         [.startTimerCall])) ∧
    (∀ (sb : SBState) (task2 : String) (n2 : Int),
      sb.isRunning = true → sb.isPaused = false → sbStart sb task2 n2 = sb) := by
  constructor
  · have hbne : (tm.taskId == t') = false := by simpa using hdiff
    simp [startTimer, hinit, hfind, htm, hbne]
  · intro sb task2 n2 h1 h2
    simp [sbStart, h1, h2]

/-- C4 witness: concrete running timer for `t1`, start request for `t2`, and
a concrete running status bar rejecting a start. -/
theorem startTimer_running_overwrite_witness :
    startTimer ⟨true, [⟨⟨"t1", "p1"⟩, []⟩, ⟨⟨"t2", "p2"⟩, []⟩],
        some ⟨"t1", "p1", 50, false, none, 7⟩⟩ "t2" 2000 true
      = (true, ⟨true, [⟨⟨"t1", "p1"⟩, []⟩, ⟨⟨"t2", "p2"⟩, []⟩],
          some ⟨"t2", "p2", 2000, false, none, 0⟩⟩, [.startTimerCall]) ∧
    sbStart ⟨true, false, some 0, 0, 12, some "t1", true⟩ "t2" 99
      = ⟨true, false, some 0, 0, 12, some "t1", true⟩ := by
  have h := startTimer_running_overwrite
    ⟨true, [⟨⟨"t1", "p1"⟩, []⟩, ⟨⟨"t2", "p2"⟩, []⟩],
      some ⟨"t1", "p1", 50, false, none, 7⟩⟩ "t2" 2000
    ⟨"t1", "p1", 50, false, none, 7⟩ ⟨"t2", "p2"⟩
    rfl (by decide) rfl (by decide)
  exact ⟨h.1, h.2 _ "t2" 99 rfl rfl⟩

/-- C5 counterexample: the loopback-server login (the variant the claim's
cited code implements) has no deadline at all.  With no callback ever
arriving the attempt stays pending forever — the listener is still up,
`isAuthenticating` is still set, and no timed-out result exists; and a
result arriving an hour in (well past the claimed 10-minute deadline) is
still accepted rather than timed out. -/
theorem loopback_login_no_deadline_cex :
    login "S" ⟨some "id", some "sec", true, .hangs, none, none⟩
        ⟨false, false, none, none, none⟩
      = (.pending, ⟨true, true, none, none, none⟩, ⟨true, true, false⟩) ∧
    serverAwait none = .neverResolves ∧
    serverAwait none ≠ .timedOut ∧
    serverAwait (some (3600000, "c", "s")) = .result "c" "s" := by
  decide

/-- C5 (amended): only the custom-scheme URI-handler variant enforces the
10-minute deadline — no arrival, or an arrival at or past the deadline,
yields the timed-out outcome with the handler already disposed, while an
earlier arrival is delivered; the loopback `waitForAuthCode` never times out,
and the loopback `login` stays pending when its listener never fires. -/
theorem uri_handler_deadline_only (arrival : Option (Nat × String × String)) :
    uriHandlerAwait none = (.timedOut, true) ∧
    (∀ t code state, arrival = some (t, code, state) →
      (loginTimeoutMs ≤ t → uriHandlerAwait arrival = (.timedOut, true)) ∧
      (t < loginTimeoutMs →
        uriHandlerAwait arrival = (.result code state, false))) ∧
    serverAwait arrival ≠ .timedOut ∧
    (∀ es env st, env.listener = .hangs → st.isAuthenticating = false →
      truthyStr env.clientId = true → truthyStr env.clientSecret = true →
      env.browserOk = true → (login es env st).1 = .pending) := by
  refine ⟨rfl, ?_, ?_, ?_⟩
  · rintro t code state rfl
    constructor
    · intro hle
      simp [uriHandlerAwait, Nat.not_lt.mpr hle]
    · intro hlt
      simp [uriHandlerAwait, hlt]
  · cases arrival with
    | none => simp [serverAwait]
    | some p => cases p with | mk t cs => cases cs with | mk c s => simp [serverAwait]
  · intro es env st hl hidle hcid hsec hbr
    simp [login, hl, hidle, hcid, hsec, hbr]

/-- C5 witness: the deadline boundary at exactly 600 000 ms times out and an
arrival one millisecond earlier is delivered. -/
theorem uri_handler_deadline_only_witness :
    uriHandlerAwait (some (600000, "c", "s")) = (.timedOut, true) ∧
    uriHandlerAwait (some (599999, "c", "s")) = (.result "c" "s", false) ∧
    serverAwait (some (600000, "c", "s")) ≠ .timedOut := by
  refine ⟨?_, ?_, ?_⟩
  · exact ((uri_handler_deadline_only (some (600000, "c", "s"))).2.1
      600000 "c" "s" rfl).1 (by decide)
  · exact ((uri_handler_deadline_only (some (599999, "c", "s"))).2.1
      599999 "c" "s" rfl).2 (by decide)
  · exact (uri_handler_deadline_only (some (600000, "c", "s"))).2.2.1

/-- C6 counterexample: `LocalAuthServer.handleRequest` never inspects the
path — a request to `/favicon.ico` is answered 200 with the HTML success
page, not 404 as the claim states. -/
theorem local_server_answers_all_paths_cex :
    (handleRequest ⟨"/favicon.ico", []⟩).1 = ⟨200, true⟩ ∧
    (handleRequest ⟨"/favicon.ico", []⟩).1.status ≠ 404 := by
  decide

/-- C6 (amended): the operative listener (`LocalAuthServer.handleRequest`)
answers every request, on any path, with the 200 HTML success page and then
emits `{code, state}` when both query parameters are present and non-empty,
and the missing-parameter error otherwise; only the draft handler in
`authentication.ts.new` returns 404 for paths other than `/auth-callback`. -/
theorem callback_request_handling (req : HttpReq) (expectedState : String) :
    ((handleRequest req).1 = ⟨200, true⟩) ∧
    (∀ c s, req.query.lookup "code" = some c →
      req.query.lookup "state" = some s → c ≠ "" → s ≠ "" →
      (handleRequest req).2 = .authCode c s) ∧
    ((truthyStr (req.query.lookup "code") = false ∨
      truthyStr (req.query.lookup "state") = false) →
      (handleRequest req).2 = .emitError) ∧
    (req.path ≠ "/auth-callback" →
      newHandleRequest expectedState req = (⟨404, false⟩, .noAction)) := by
  refine ⟨rfl, ?_, ?_, ?_⟩
  · intro c s hc hs hcne hsne
    simp [handleRequest, hc, hs, truthyStr, hcne, hsne]
  · intro h
    rcases h with h | h <;> simp [handleRequest, h]
  · intro hpath
    have hbne : (req.path != "/auth-callback") = true := by simpa using hpath
    simp [newHandleRequest, hbne]

/-- C6 witness: a callback with both parameters emits them; a parameterless
request emits the error; a wrong path on the draft handler is a 404. -/
theorem callback_request_handling_witness :
    (handleRequest ⟨"/auth-callback", [("code", "C"), ("state", "S")]⟩).2
      = .authCode "C" "S" ∧
    (handleRequest ⟨"/auth-callback", []⟩).2 = .emitError ∧
    newHandleRequest "S" ⟨"/other", []⟩ = (⟨404, false⟩, .noAction) := by
  refine ⟨?_, ?_, ?_⟩
  · exact (callback_request_handling
      ⟨"/auth-callback", [("code", "C"), ("state", "S")]⟩ "S").2.1
      "C" "S" (by decide) (by decide) (by decide) (by decide)
  · exact (callback_request_handling ⟨"/auth-callback", []⟩ "S").2.2.1
      (Or.inl (by decide))
  · exact (callback_request_handling ⟨"/other", []⟩ "S").2.2.2 (by decide)

/-- C7 counterexample: with port 3000 in use and 3001 free,
`LocalAuthServer.start` simply fails — it does not retry on 3001 as the
claim states; and the draft's retry loop, with 3000 and 3001 both busy and
3002 free, ends up listening on 3002, i.e. it retries more than the claimed
single time instead of surfacing a failure. -/
theorem local_server_no_retry_cex :
    localServerStart (fun p => if p == 3000 then .addrInUse else .ok) 3000
      = none ∧
    newServerStart (fun p => if p ≤ 3001 then .addrInUse else .ok) 3000 5
      = some 3002 := by
  decide

/-- C7 (amended): `LocalAuthServer.start` never retries — binding succeeds
on the configured port or the start (and with it the login attempt) fails,
for port-in-use and any other error alike; the draft `startLocalServer` in
`authentication.ts.new` is the only code that retries on port-in-use, and it
does so by moving to the next port again and again, without a one-retry
bound, while any other bind error fails immediately. -/
theorem bind_retry_behavior (bind : Nat → BindOutcome) (port fuel : Nat) :
    (bind port = .ok → localServerStart bind port = some port) ∧
    (bind port = .addrInUse → localServerStart bind port = none) ∧
    (bind port = .otherErr → localServerStart bind port = none) ∧
    (bind port = .ok → newServerStart bind port (fuel + 1) = some port) ∧
    (bind port = .addrInUse →
      newServerStart bind port (fuel + 1) = newServerStart bind (port + 1) fuel) ∧
    (bind port = .otherErr → newServerStart bind port (fuel + 1) = none) := by
  refine ⟨?_, ?_, ?_, ?_, ?_, ?_⟩ <;> intro h <;>
    simp [localServerStart, newServerStart, h]

/-- C7 witness: concrete bind outcomes for both servers. -/
theorem bind_retry_behavior_witness :
    localServerStart (fun _ => .addrInUse) 3000 = none ∧
    newServerStart (fun _ => .ok) 3000 3 = some 3000 ∧
    newServerStart (fun _ => .otherErr) 3000 3 = none := by
  refine ⟨?_, ?_, ?_⟩
  · exact (bind_retry_behavior (fun _ => .addrInUse) 3000 0).2.1 rfl
  · exact (bind_retry_behavior (fun _ => .ok) 3000 2).2.2.2.1 rfl
  · exact (bind_retry_behavior (fun _ => .otherErr) 3000 2).2.2.2.2.2 rfl

/-- C8: the malformed-URI rewrite pass is the identity on canonical input.
For every URI of the canonical shape
`vscode://zoho-projects-time-tracker/auth-callback` followed by any suffix
(query string and fragment) containing no raw `':'` — every percent-encoded
OAuth redirect query satisfies this — none of the four ordered rewrite rules
fires, so the string is returned unchanged and parameter extraction sees the
original URI. -/
theorem normalizeUri_canonical_id (q : List Char) (hq : ':' ∉ q) :
    normalizeUri (canonicalChars ++ q) = canonicalChars ++ q := by
  have g1 : isPre "https://vscode//".toList (canonicalChars ++ q) = false := by
    rw [isPre_append_right _ _ _ (by decide)]; decide
  have g2 : isPre "http://vscode//".toList (canonicalChars ++ q) = false := by
    rw [isPre_append_right _ _ _ (by decide)]; decide
  have hsplit : canonicalChars ++ q = 'v' :: (canonicalTail ++ q) := by
    rw [show canonicalChars = 'v' :: canonicalTail by decide]; rfl
  have g3 : hasSub "vscode:/zoho-projects".toList (canonicalChars ++ q)
      = false := by
    have e1 : isPre "vscode:/zoho-projects".toList
        ('v' :: (canonicalTail ++ q)) = false := by
      rw [← hsplit, isPre_append_right _ _ _ (by decide)]; decide
    have e2 : hasSub "vscode:/zoho-projects".toList (canonicalTail ++ q)
        = false := by
      rw [show ("vscode:/zoho-projects".toList : List Char)
            = 'v' :: "scode:/zoho-projects".toList by decide]
      rw [hasSub_head_skip _ _ _ _ (by decide)]
      rw [show ('v' :: "scode:/zoho-projects".toList : List Char)
            = "vscode:/zoho-projects".toList by decide]
      exact hasSub_false_of_missing _ ':' (by decide) q hq
    have hstep : hasSub "vscode:/zoho-projects".toList
        ('v' :: (canonicalTail ++ q))
        = (isPre "vscode:/zoho-projects".toList ('v' :: (canonicalTail ++ q))
           || hasSub "vscode:/zoho-projects".toList (canonicalTail ++ q)) :=
      rfl
    rw [hsplit, hstep, e1, e2]
    rfl
  have g4 : hasSub "vscode:///".toList (canonicalChars ++ q) = false := by
    have e1 : isPre "vscode:///".toList ('v' :: (canonicalTail ++ q))
        = false := by
      rw [← hsplit, isPre_append_right _ _ _ (by decide)]; decide
    have e2 : hasSub "vscode:///".toList (canonicalTail ++ q) = false := by
      rw [show ("vscode:///".toList : List Char)
            = 'v' :: "scode:///".toList by decide]
      rw [hasSub_head_skip _ _ _ _ (by decide)]
      rw [show ('v' :: "scode:///".toList : List Char)
            = "vscode:///".toList by decide]
      exact hasSub_false_of_missing _ ':' (by decide) q hq
    have hstep : hasSub "vscode:///".toList ('v' :: (canonicalTail ++ q))
        = (isPre "vscode:///".toList ('v' :: (canonicalTail ++ q))
           || hasSub "vscode:///".toList (canonicalTail ++ q)) :=
      rfl
    rw [hsplit, hstep, e1, e2]
    rfl
  simp only [normalizeUri, g1, g2, g3, g4, Bool.false_eq_true, if_false]

/-- C8 witness: a concrete canonical redirect URI with a realistic query
string passes through the rewrite pass unchanged. -/
theorem normalizeUri_canonical_id_witness :
    (':' ∉ "?state=abc123xyz&code=1000.abcd.efgh&location=us".toList) ∧
    normalizeUri (canonicalChars
        ++ "?state=abc123xyz&code=1000.abcd.efgh&location=us".toList)
      = canonicalChars
        ++ "?state=abc123xyz&code=1000.abcd.efgh&location=us".toList :=
  ⟨by decide, normalizeUri_canonical_id _ (by decide)⟩

/-- C9 counterexample: a start for the same task while the timer is Paused
is not unconditionally successful — if the task id is no longer in the
loaded task list (here: an empty list), `startTimer` fails and the paused
timer is not resumed, refuting the claim's "returns success
unconditionally". -/
theorem resume_not_unconditional_cex :
    startTimer ⟨true, [], some ⟨"t1", "p1", 0, true, some 10, 5⟩⟩ "t1" 20 true
      = (false, ⟨true, [], some ⟨"t1", "p1", 0, true, some 10, 5⟩⟩, []) := by
  decide

/-- C9 (amended): provided the manager is initialized and the task id is
still found in the loaded task list, a start for the same task while Paused
issues no remote call and succeeds, clearing the paused flag, adding
`now - pausedAt` to the accumulated paused milliseconds and clearing
`pausedAt`, while `taskId`, `projectId`, `startTime` and the rest of the
manager state are left unchanged. -/
theorem resume_paused_same_task
    (st : TasksState) (taskId : String) (now : Int) (remoteOk : Bool)
    (tm : TimerInfo) (task : ZTaskBase) (p : Int)
    (hinit : st.initialized = true)
    (hfind : findTaskById st.tasks taskId = some task)
    (htm : st.currentTimer = some tm)
    (hid : tm.taskId = taskId)
    (hp : tm.isPaused = true)
    (hpa : tm.pausedAt = some p) :
    startTimer st taskId now remoteOk
      = (true,
         ⟨st.initialized, st.tasks,
          some ⟨tm.taskId, tm.projectId, tm.startTime, false, none,
                tm.totalPausedMs + (now - p)⟩⟩,
         []) := by
  cases st with
  | mk ini tasks cur =>
      simp only at hinit hfind htm
      subst hinit htm
      simp [startTimer, hfind, hid, hp, hpa]

/-- C9 witness: a concrete paused timer resumed 7 ms after it was paused. -/
theorem resume_paused_same_task_witness :
    startTimer ⟨true, [⟨⟨"t1", "p1"⟩, []⟩],
        some ⟨"t1", "p1", 0, true, some 10, 5⟩⟩ "t1" 17 false
      = (true, ⟨true, [⟨⟨"t1", "p1"⟩, []⟩],
          some ⟨"t1", "p1", 0, false, none, 12⟩⟩, []) := by
  have h := resume_paused_same_task
    ⟨true, [⟨⟨"t1", "p1"⟩, []⟩], some ⟨"t1", "p1", 0, true, some 10, 5⟩⟩
    "t1" 17 false ⟨"t1", "p1", 0, true, some 10, 5⟩ ⟨"t1", "p1"⟩ 10
    rfl (by decide) rfl rfl rfl rfl
  simpa using h

/-- C10: `pauseTimer` with no active timer, or with an already paused timer,
returns failure without a remote call and without touching any state; and a
remote pause call is issued only when a timer exists and is Running (not
paused) in an initialized manager. -/
theorem pauseTimer_guards (st : TasksState) (now : Int) (remoteOk : Bool) :
    (st.currentTimer = none → pauseTimer st now remoteOk = (false, st, [])) ∧
    (∀ tm, st.currentTimer = some tm → tm.isPaused = true →
      pauseTimer st now remoteOk = (false, st, [])) ∧
    ((pauseTimer st now remoteOk).2.2 ≠ [] →
      st.initialized = true ∧
      ∃ tm, st.currentTimer = some tm ∧ tm.isPaused = false) := by
  refine ⟨?_, ?_, ?_⟩
  · intro h
    simp [pauseTimer, h]
  · intro tm htm hp
    simp [pauseTimer, htm, hp]
  · intro hcall
    cases hinit : st.initialized with
    | false => simp [pauseTimer, hinit] at hcall
    | true =>
        cases htm : st.currentTimer with
        | none => simp [pauseTimer, hinit, htm] at hcall
        | some tm =>
            cases hp : tm.isPaused with
            | true => simp [pauseTimer, hinit, htm, hp] at hcall
            | false => exact ⟨rfl, tm, rfl, hp⟩

/-- C10 witness: no active timer, and an already paused timer. -/
theorem pauseTimer_guards_witness :
    pauseTimer ⟨true, [], none⟩ 5 true = (false, ⟨true, [], none⟩, []) ∧
    pauseTimer ⟨true, [], some ⟨"t1", "p1", 0, true, some 2, 0⟩⟩ 5 true
      = (false, ⟨true, [], some ⟨"t1", "p1", 0, true, some 2, 0⟩⟩, []) := by
  constructor
  · exact (pauseTimer_guards ⟨true, [], none⟩ 5 true).1 rfl
  · exact (pauseTimer_guards
      ⟨true, [], some ⟨"t1", "p1", 0, true, some 2, 0⟩⟩ 5 true).2.1
      ⟨"t1", "p1", 0, true, some 2, 0⟩ rfl rfl

end Zoho
